import Mathlib

/-!
Shallow embedding of the task/workflow orchestration engine of
`strix/tools/orchestration/orchestration_actions.py`.

Modelling conventions, each mirroring a construct of the Python module:

* The process-wide registries (`_tasks`, `_workflows`, `_teams`,
  `_agent_capacities`, `_sync_points`, `_messages`) become the fields of an
  explicit `OrchState` record threaded through every operation; each
  operation returns its result paired with the successor state.
* Python `dict`s keyed by string ids become association lists
  `List (String × α)` with insertion-order semantics: assignment to an
  existing key replaces it in place, assignment to a new key appends
  (`dictSet`), and lookup takes the first matching key (`dictLookup`).
* `datetime.now(timezone.utc).isoformat()` timestamps become an abstract
  clock value `now : Nat` supplied by the caller of each operation.
* `_generate_id` draws a uuid4 fragment; it is modelled by a fresh-counter
  field `nextId` of the state, so `generate_id pre s.nextId` plays the role
  of the fresh identifier (uniqueness of uuids becomes counter freshness).
  Operations that fail before storing anything return the state — counter
  included — unchanged, matching Python where nothing persists on failure.
* Python truthiness tests on optional strings (`if assigned_to:`,
  `if team_id ...`) are `optStrTruthy`: `None` and `""` are falsy.
* The unused `agent_state` parameter of every tool is dropped: the Python
  bodies never read it.
* Result dictionaries (`{"success": ..., ...}`) become one inductive (or
  structure) per operation carrying exactly the data fields the Python
  return value carries; distinct error returns become distinct
  constructors.
-/

namespace Orchestration

/-- `TASK_STATUSES` list of the module. -/
def TASK_STATUSES : List String :=
  ["pending", "assigned", "in_progress", "completed", "failed", "blocked"]

/-- `PRIORITY_LEVELS` list of the module. -/
def PRIORITY_LEVELS : List String := ["critical", "high", "medium", "low"]

/-- `_generate_id(prefix)`: `f"{prefix}_{str(uuid.uuid4())[:8]}"`, with the
uuid fragment modelled by the state's fresh counter. -/
def generate_id (pre : String) (n : Nat) : String := pre ++ "_" ++ toString n

/-- A task record, the value stored in `_tasks`: the fields are exactly the
keys of the dict built in `create_task`. -/
structure Task where
  id : String
  title : String
  description : String
  priority : String
  status : String
  depends_on : List String
  assigned_to : Option String
  tags : List String
  estimated_minutes : Nat
  created_at : Nat
  updated_at : Nat
  started_at : Option Nat
  completed_at : Option Nat
  result : Option String
deriving Repr, DecidableEq

/-- One step dict of a workflow's `steps` list: `name` is mandatory,
`task_template`, `depends_on` and `priority` are read with `.get`. -/
structure WorkflowStep where
  name : String
  task_template : Option String
  depends_on : List String
  priority : Option String
deriving Repr, DecidableEq

/-- A workflow record, the value stored in `_workflows`. -/
structure Workflow where
  id : String
  name : String
  description : String
  steps : List WorkflowStep
  status : String
  created_at : Nat
  executed_at : Option Nat
  task_ids : List (String × String)
deriving Repr, DecidableEq

/-- A team record, the value stored in `_teams`. -/
structure Team where
  id : String
  name : String
  description : String
  members : List String
  roles : List (String × String)
  created_at : Nat
deriving Repr, DecidableEq

/-- A capacity record, the value stored in `_agent_capacities` by
`set_agent_capacity` (which always writes the `max_concurrent` key). -/
structure CapacityRecord where
  max_concurrent : Nat
  updated_at : Nat
deriving Repr, DecidableEq

/-- A sync-point record, the value stored in `_sync_points`. -/
structure SyncPoint where
  id : String
  name : String
  description : String
  required_agents : List String
  checked_in : List String
  status : String
  created_at : Nat
deriving Repr, DecidableEq

/-- A broadcast record, the value appended to `_messages`. -/
structure BroadcastMsg where
  id : String
  message : String
  priority : String
  recipients : List String
  team_id : Option String
  sent_at : Nat
deriving Repr, DecidableEq

/-- The module-level mutable registries, made explicit. -/
structure OrchState where
  tasks : List (String × Task)
  workflows : List (String × Workflow)
  teams : List (String × Team)
  agent_capacities : List (String × CapacityRecord)
  sync_points : List (String × SyncPoint)
  messages : List BroadcastMsg
  nextId : Nat
deriving Repr, DecidableEq

/-- The state at module load: every registry empty. -/
def initState : OrchState :=
  { tasks := [], workflows := [], teams := [], agent_capacities := [],
    sync_points := [], messages := [], nextId := 0 }

/-- Dict lookup `m[k]` / `m.get(k)`: first entry with the given key. -/
def dictLookup {α : Type} (m : List (String × α)) (k : String) : Option α :=
  match m with
  | [] => none
  | (k', v) :: rest => if k' = k then some v else dictLookup rest k

/-- Dict assignment `m[k] = v`: replace in place when the key is present,
append otherwise (Python dicts preserve insertion order). -/
def dictSet {α : Type} (m : List (String × α)) (k : String) (v : α) :
    List (String × α) :=
  match m with
  | [] => [(k, v)]
  | (k', v') :: rest =>
    if k' = k then (k, v) :: rest else (k', v') :: dictSet rest k v

/-- Python truthiness of an optional string: `None` and `""` are falsy. -/
def optStrTruthy : Option String → Bool
  | none => false
  | some a => a != ""

/-- Result of `create_task`: the success dict carries `task_id` and the
task; the two failure returns are invalid priority and the circular
dependency error naming the offending dependency id. -/
inductive CreateTaskResult where
  | ok (task_id : String) (task : Task)
  | invalidPriority
  | circularDependency (dep_id : String)
deriving Repr, DecidableEq

/-- `create_task`: validates the priority, builds the task dict, rejects a
direct back-edge cycle (first offending dependency wins), stores the task
and, when an assignee is supplied (truthy), flips its status from
`pending` to `assigned`. -/
def create_task (s : OrchState) (now : Nat) (title description pr : String)
    (depends_on : List String) (assigned_to : Option String)
    (tags : List String) (estimated_minutes : Nat) :
    CreateTaskResult × OrchState :=
  if pr ∉ PRIORITY_LEVELS then (.invalidPriority, s)
  else
    let task_id := generate_id "task" s.nextId
    let task : Task :=
      { id := task_id, title := title, description := description,
        priority := pr, status := "pending", depends_on := depends_on,
        assigned_to := assigned_to, tags := tags,
        estimated_minutes := estimated_minutes, created_at := now,
        updated_at := now, started_at := none, completed_at := none,
        result := none }
    match depends_on.find? (fun dep_id =>
        match dictLookup s.tasks dep_id with
        | some dep_task => dep_task.depends_on.contains task_id
        | none => false) with
    | some dep_id => (.circularDependency dep_id, s)
    | none =>
      let task :=
        if optStrTruthy assigned_to then { task with status := "assigned" }
        else task
      (.ok task_id task,
       { s with tasks := dictSet s.tasks task_id task,
                nextId := s.nextId + 1 })

/-- Result of `assign_task`: success carries the updated task; the three
failure returns are task-not-found, the dependency-not-completed error
(naming the dependency id and carrying the blocking task dict) and the
at-capacity error (naming the agent and its current in-flight count — the
Python message reports the count, not the configured limit). -/
inductive AssignResult where
  | ok (task : Task)
  | notFound (task_id : String)
  | dependencyNotCompleted (dep_id : String) (blocking_task : Task)
  | atCapacity (agent_id : String) (current_tasks : Nat)
deriving Repr, DecidableEq

/-- `True` exactly on the success constructor of `AssignResult`. -/
def AssignResult.isOk : AssignResult → Bool
  | .ok _ => true
  | _ => false

/-- The body of `assign_task`'s dependency loop for one dependency id:
`some (dep_id, blocking)` when that id is present in the task store with a
status other than `completed`, `none` otherwise — in particular a
dependency id absent from the store never trips the check. -/
def unmetDep (s : OrchState) (dep_id : String) : Option (String × Task) :=
  match dictLookup s.tasks dep_id with
  | some dep => if dep.status ≠ "completed" then some (dep_id, dep) else none
  | none => none

/-- The generator expression of `assign_task`'s capacity check: the number
of tasks whose `assigned_to` equals the agent and whose status is
`assigned` or `in_progress`. -/
def countActive (s : OrchState) (agent_id : String) : Nat :=
  (s.tasks.filter (fun p =>
    p.2.assigned_to == some agent_id &&
    (p.2.status == "assigned" || p.2.status == "in_progress"))).length

/-- `assign_task`: not-found check, then the dependency loop (first
present-and-not-completed dependency fails the call), then — only when the
agent has a capacity record and `force` is false — the in-flight count
check against `max_concurrent`; on success the task gets the assignee,
status `assigned` and a fresh `updated_at`. -/
def assign_task (s : OrchState) (now : Nat) (task_id agent_id : String)
    (force : Bool) : AssignResult × OrchState :=
  match dictLookup s.tasks task_id with
  | none => (.notFound task_id, s)
  | some task =>
    match task.depends_on.findSome? (unmetDep s) with
    | some (dep_id, blocking) => (.dependencyNotCompleted dep_id blocking, s)
    | none =>
      let capacityFailure : Option Nat :=
        match dictLookup s.agent_capacities agent_id, force with
        | some capacity, false =>
          let current_tasks := countActive s agent_id
          if current_tasks ≥ capacity.max_concurrent then some current_tasks
          else none
        | _, _ => none
      match capacityFailure with
      | some current_tasks => (.atCapacity agent_id current_tasks, s)
      | none =>
        let task' := { task with assigned_to := some agent_id,
                                 status := "assigned", updated_at := now }
        (.ok task', { s with tasks := dictSet s.tasks task_id task' })

/-- Result of `complete_task`: success carries the updated task and the
advisory `unblocked_tasks` id list; the only failure is task-not-found. -/
inductive CompleteResult where
  | ok (task : Task) (unblocked_tasks : List String)
  | notFound (task_id : String)
deriving Repr, DecidableEq

/-- `complete_task`: after the not-found check it writes the caller's
`status` string verbatim (no validation against any status set), stores
the result and stamps `completed_at`/`updated_at`; it then scans the
updated store for tasks depending on this one whose every dependency is
`completed` (a dependency id absent from the store counts as not
completed) and whose own status is still `pending`. -/
def complete_task (s : OrchState) (now : Nat) (task_id res st : String) :
    CompleteResult × OrchState :=
  match dictLookup s.tasks task_id with
  | none => (.notFound task_id, s)
  | some task =>
    let task' := { task with status := st, result := some res,
                             completed_at := some now, updated_at := now }
    let s' := { s with tasks := dictSet s.tasks task_id task' }
    let unblocked := (s'.tasks.filter (fun p =>
        p.2.depends_on.contains task_id &&
        p.2.depends_on.all (fun dep =>
          match dictLookup s'.tasks dep with
          | some d => d.status == "completed"
          | none => false) &&
        p.2.status == "pending")).map (fun p => p.1)
    (.ok task' unblocked, s')

/-- `create_workflow`: unconditionally stores a fresh workflow record in
status `created` and returns its id and value. -/
def create_workflow (s : OrchState) (now : Nat) (name description : String)
    (steps : List WorkflowStep) : (String × Workflow) × OrchState :=
  let workflow_id := generate_id "wf" s.nextId
  let workflow : Workflow :=
    { id := workflow_id, name := name, description := description,
      steps := steps, status := "created", created_at := now,
      executed_at := none, task_ids := [] }
  ((workflow_id, workflow),
   { s with workflows := dictSet s.workflows workflow_id workflow,
            nextId := s.nextId + 1 })

/-- Result of `execute_workflow`: success carries the updated workflow and
the ids of the tasks actually created; the only failure is
workflow-not-found. -/
inductive ExecuteResult where
  | ok (workflow : Workflow) (created_tasks : List String)
  | notFound (workflow_id : String)
deriving Repr, DecidableEq

/-- The body of `execute_workflow`'s step loop: resolve the step's named
prerequisites against the step-name-to-task-id map built so far (names not
yet mapped are dropped), call `create_task` with the bracketed title, the
template (defaulting to the step name), the step priority (defaulting to
`medium`), no assignee, the `workflow` tag pair and the default estimate
30; record the new id only when creation succeeded. -/
def workflowStepAction (now : Nat) (wf_name workflow_id : String)
    (acc : List (String × String) × List String × OrchState)
    (step : WorkflowStep) :
    List (String × String) × List String × OrchState :=
  let (step_to_task, created_tasks, cur) := acc
  let task_template := step.task_template.getD step.name
  let depends_on := step.depends_on.filterMap
    (fun dep_name => dictLookup step_to_task dep_name)
  let r := create_task cur now ("[" ++ wf_name ++ "] " ++ step.name)
    task_template (step.priority.getD "medium") depends_on none
    ["workflow", workflow_id] 30
  match r.1 with
  | .ok task_id _ =>
    (dictSet step_to_task step.name task_id, created_tasks ++ [task_id], r.2)
  | _ => (step_to_task, created_tasks, r.2)

/-- `execute_workflow`: after the not-found check it marks the workflow
`executing` and stamps `executed_at` up front, then folds the step loop
over the steps in the order supplied, and finally records the
step-name-to-task-id map on the workflow; it returns success regardless of
how many step creations succeeded. -/
def execute_workflow (s : OrchState) (now : Nat) (workflow_id : String) :
    ExecuteResult × OrchState :=
  match dictLookup s.workflows workflow_id with
  | none => (.notFound workflow_id, s)
  | some workflow =>
    let wf1 := { workflow with status := "executing",
                               executed_at := some now }
    let s1 := { s with workflows := dictSet s.workflows workflow_id wf1 }
    let r := wf1.steps.foldl (workflowStepAction now wf1.name workflow_id)
      ([], [], s1)
    let wf2 := { wf1 with task_ids := r.1 }
    let s3 := { r.2.2 with
                workflows := dictSet r.2.2.workflows workflow_id wf2 }
    (.ok wf2 r.2.1, s3)

/-- `create_agent_team`: stores a fresh team whose member list is the
supplied list in order and whose roles map gives every member the role
`member`. -/
def create_agent_team (s : OrchState) (now : Nat) (name : String)
    (initial_members : List String) (description : String) :
    (String × Team) × OrchState :=
  let team_id := generate_id "team" s.nextId
  let team0 : Team :=
    { id := team_id, name := name, description := description,
      members := [], roles := [], created_at := now }
  let team := initial_members.foldl (fun t m =>
    { t with members := t.members ++ [m],
             roles := dictSet t.roles m "member" }) team0
  ((team_id, team),
   { s with teams := dictSet s.teams team_id team, nextId := s.nextId + 1 })

/-- The team contribution to a broadcast's recipient list: the named
team's member list when the team id is truthy and present in `_teams`,
nothing otherwise (an unknown team id is silently ignored). -/
def teamMembers (s : OrchState) (team_id : Option String) : List String :=
  match team_id with
  | some tid =>
    if tid ≠ "" then
      match dictLookup s.teams tid with
      | some team => team.members
      | none => []
    else []
  | none => []

/-- Result of `broadcast_message`: the Python return dict always carries
`success: True` together with the message id, the recipient count and the
stored broadcast record. -/
structure BroadcastResult where
  success : Bool
  message_id : String
  recipients_count : Nat
  broadcast : BroadcastMsg
deriving Repr, DecidableEq

/-- `broadcast_message`: the recipient list is the deduplicated
concatenation of the (truthiness-guarded) explicit target list and the
team contribution — Python's `list(set(recipients))` leaves the order
unspecified, so deduplication is modelled by `List.dedup`, a canonical
representative with the same underlying set and cardinality. The call
always succeeds and appends the message record to `_messages`. -/
def broadcast_message (s : OrchState) (now : Nat) (message : String)
    (target_agents : List String) (team_id : Option String)
    (pr : String) : BroadcastResult × OrchState :=
  let msg_id := generate_id "msg" s.nextId
  let fromTargets := if target_agents.isEmpty then [] else target_agents
  let recipients := (fromTargets ++ teamMembers s team_id).dedup
  let msg : BroadcastMsg :=
    { id := msg_id, message := message, priority := pr,
      recipients := recipients, team_id := team_id, sent_at := now }
  ({ success := true, message_id := msg_id,
     recipients_count := recipients.length, broadcast := msg },
   { s with messages := s.messages ++ [msg], nextId := s.nextId + 1 })

/-- Result of `set_agent_capacity`: success carries the stored record; the
only failure is the 1–20 range check. -/
inductive CapacityResult where
  | ok (capacity : CapacityRecord)
  | outOfRange
deriving Repr, DecidableEq

/-- `set_agent_capacity`: range-checks `max_concurrent` against 1–20 and
stores the record keyed by agent id. -/
def set_agent_capacity (s : OrchState) (now : Nat) (agent_id : String)
    (max_concurrent : Nat) : CapacityResult × OrchState :=
  if 1 ≤ max_concurrent ∧ max_concurrent ≤ 20 then
    let cap : CapacityRecord :=
      { max_concurrent := max_concurrent, updated_at := now }
    (.ok cap,
     { s with agent_capacities := dictSet s.agent_capacities agent_id cap })
  else (.outOfRange, s)

/-- `create_sync_point`: unconditionally stores a fresh sync point in
status `waiting` with an empty check-in list. -/
def create_sync_point (s : OrchState) (now : Nat) (name : String)
    (required_agents : List String) (description : String) :
    (String × SyncPoint) × OrchState :=
  let sync_id := generate_id "sync" s.nextId
  let sync : SyncPoint :=
    { id := sync_id, name := name, description := description,
      required_agents := required_agents, checked_in := [],
      status := "waiting", created_at := now }
  ((sync_id, sync),
   { s with sync_points := dictSet s.sync_points sync_id sync,
            nextId := s.nextId + 1 })

/-- The dashboard dict assembled by `get_orchestration_dashboard`. -/
structure Dashboard where
  tasks_total : Nat
  tasks_by_status : List (String × Nat)
  tasks_by_priority : List (String × Nat)
  workflows_total : Nat
  workflows_active : Nat
  teams_total : Nat
  teams_total_members : Nat
  agent_workloads : List (String × Nat)
  pending_messages : Nat
  sync_points : Nat
deriving Repr, DecidableEq

/-- `m[k] = m.get(k, 0) + 1` on a counter dict. -/
def bumpCount (m : List (String × Nat)) (k : String) : List (String × Nat) :=
  dictSet m k ((dictLookup m k).getD 0 + 1)

/-- `get_orchestration_dashboard`: a pure aggregation over the registries —
status counts seeded with the six statuses, priority counts over
non-terminal tasks seeded with the four levels, per-agent in-flight
workloads (truthy assignee, status `assigned` or `in_progress`), workflow,
team, message and sync-point totals. The state is returned untouched: the
Python body only reads the registries. -/
def get_orchestration_dashboard (s : OrchState) : Dashboard × OrchState :=
  let task_stats := s.tasks.foldl (fun m p => bumpCount m p.2.status)
    (TASK_STATUSES.map (fun st => (st, 0)))
  let priority_stats := s.tasks.foldl (fun m p =>
      if p.2.status ≠ "completed" ∧ p.2.status ≠ "failed" then
        bumpCount m p.2.priority
      else m)
    (PRIORITY_LEVELS.map (fun pr => (pr, 0)))
  let agent_workloads := s.tasks.foldl (fun m p =>
      if optStrTruthy p.2.assigned_to ∧
          (p.2.status = "assigned" ∨ p.2.status = "in_progress") then
        bumpCount m (p.2.assigned_to.getD "")
      else m) []
  ({ tasks_total := s.tasks.length,
     tasks_by_status := task_stats,
     tasks_by_priority := priority_stats,
     workflows_total := s.workflows.length,
     workflows_active :=
       (s.workflows.filter (fun p => p.2.status == "executing")).length,
     teams_total := s.teams.length,
     teams_total_members := (s.teams.map (fun p => p.2.members.length)).sum,
     agent_workloads := agent_workloads,
     pending_messages := s.messages.length,
     sync_points := s.sync_points.length }, s)

/-! ## Helper lemmas -/

/-- Looking up the key just written by `dictSet` yields the written value. -/
theorem dictLookup_dictSet_self {α : Type} (m : List (String × α))
    (k : String) (v : α) : dictLookup (dictSet m k v) k = some v := by
  induction m with
  | nil => simp [dictSet, dictLookup]
  | cons p rest ih =>
    obtain ⟨k', v'⟩ := p
    by_cases h : k' = k
    · simp [dictSet, dictLookup, h]
    · simp [dictSet, dictLookup, h, ih]

/-- One `complete_task` call on a known task rewrites exactly the four
fields `status`, `result`, `completed_at`, `updated_at` of that task's
store entry. -/
theorem complete_task_lookup (s : OrchState) (now : Nat)
    (task_id res st : String) (task : Task)
    (h : dictLookup s.tasks task_id = some task) :
    dictLookup (complete_task s now task_id res st).2.tasks task_id =
      some { task with status := st, result := some res,
                       completed_at := some now, updated_at := now } := by
  unfold complete_task
  rw [h]
  exact dictLookup_dictSet_self _ _ _

/-! ## Claim theorems -/

/-- C9: the dashboard snapshot never mutates state — for every state of
the task/workflow/team/capacity/sync-point/message registries,
`get_orchestration_dashboard` returns every registry exactly as it was. -/
theorem dashboard_never_mutates_state (s : OrchState) :
    (get_orchestration_dashboard s).2 = s := rfl

/-- C10: `complete_task` performs no validation of its status argument:
for every known task id and every string `st`, the call succeeds, writes
`st` verbatim as the task's status (both in the returned task and in the
store) and stamps a completion timestamp. -/
theorem complete_accepts_any_status (s : OrchState) (now : Nat)
    (task_id res st : String) (task : Task)
    (h : dictLookup s.tasks task_id = some task) :
    (∃ u, (complete_task s now task_id res st).1 =
      CompleteResult.ok { task with status := st, result := some res,
                                    completed_at := some now,
                                    updated_at := now } u) ∧
    dictLookup (complete_task s now task_id res st).2.tasks task_id =
      some { task with status := st, result := some res,
                       completed_at := some now, updated_at := now } := by
  refine ⟨?_, complete_task_lookup s now task_id res st task h⟩
  unfold complete_task
  rw [h]
  exact ⟨_, rfl⟩

/-- A task already in the terminal status `completed`, used as the seed of
several concrete scenarios. -/
def wTask : Task :=
  { id := "t1", title := "t", description := "d", priority := "medium",
    status := "completed", depends_on := [], assigned_to := none,
    tags := [], estimated_minutes := 30, created_at := 0, updated_at := 0,
    started_at := none, completed_at := some 0, result := some "r0" }

/-- A one-task store holding `wTask` under the id `t1`. -/
def wState : OrchState := { initState with tasks := [("t1", wTask)] }

/-- Witness for C10: on the concrete one-task store, completing `t1` with
the out-of-vocabulary status string `wibble` succeeds and stores `wibble`
verbatim (and `wibble` is not one of the defined statuses). -/
theorem complete_accepts_any_status_witness :
    ("wibble" ∉ TASK_STATUSES ∧ dictLookup wState.tasks "t1" = some wTask) ∧
    ((∃ u, (complete_task wState 7 "t1" "out" "wibble").1 =
      CompleteResult.ok { wTask with status := "wibble",
                                     result := some "out",
                                     completed_at := some 7,
                                     updated_at := 7 } u) ∧
    dictLookup (complete_task wState 7 "t1" "out" "wibble").2.tasks "t1" =
      some { wTask with status := "wibble", result := some "out",
                        completed_at := some 7, updated_at := 7 }) :=
  ⟨⟨by decide, rfl⟩,
   complete_accepts_any_status wState 7 "t1" "out" "wibble" wTask rfl⟩

/-- Counterexample for C1: on the concrete one-task store,
`complete(t1, completed)` followed by `complete(t1, failed)` leaves the
status `failed`, not `completed` — the second terminal transition wins,
refuting first-terminal-transition-wins and no-exit-from-terminal. -/
theorem complete_terminal_overwrite_cex :
    (dictLookup (complete_task (complete_task wState 1 "t1" "r1"
        "completed").2 2 "t1" "r2" "failed").2.tasks "t1").map Task.status =
      some "failed" ∧
    (dictLookup (complete_task (complete_task wState 1 "t1" "r1"
        "completed").2 2 "t1" "r2" "failed").2.tasks "t1").map Task.status ≠
      some "completed" := by
  exact ⟨rfl, by decide⟩

/-- C1 as amended: `complete_task` does not protect terminal statuses —
for every known task and every pair of consecutive `complete_task` calls,
the status after the second call is the second call's status argument
(last write wins), so in particular `completed` followed by `failed`
leaves the task `failed`. -/
theorem complete_last_write_wins (s : OrchState) (n1 n2 : Nat)
    (task_id r1 st1 r2 st2 : String) (task : Task)
    (h : dictLookup s.tasks task_id = some task) :
    (dictLookup (complete_task (complete_task s n1 task_id r1 st1).2
        n2 task_id r2 st2).2.tasks task_id).map Task.status = some st2 := by
  have h2 := complete_task_lookup _ n2 task_id r2 st2 _
    (complete_task_lookup s n1 task_id r1 st1 task h)
  rw [h2]
  rfl

/-- Witness for the amended C1: on the concrete one-task store, completing
`t1` as `completed` and then as `failed` leaves status `failed`. -/
theorem complete_last_write_wins_witness :
    dictLookup wState.tasks "t1" = some wTask ∧
    (dictLookup (complete_task (complete_task wState 1 "t1" "r1"
        "completed").2 2 "t1" "r2" "failed").2.tasks "t1").map Task.status =
      some "failed" :=
  ⟨rfl, complete_last_write_wins wState 1 2 "t1" "r1" "completed" "r2"
    "failed" wTask rfl⟩

/-- `True` exactly on the success constructor of `CreateTaskResult`. -/
def CreateTaskResult.isOk : CreateTaskResult → Bool
  | .ok _ _ => true
  | _ => false

/-- `unmetDep` hits exactly the dependency ids that are present in the
task store with a status other than `completed`, and its payload is that
id with its store entry. -/
theorem unmetDep_spec (s : OrchState) (dep_id d : String) (b : Task) :
    unmetDep s dep_id = some (d, b) ↔
      d = dep_id ∧ dictLookup s.tasks dep_id = some b ∧
        b.status ≠ "completed" := by
  unfold unmetDep
  split
  · rename_i dep hl
    rw [hl]
    by_cases hc : dep.status = "completed"
    · simp only [hc, ne_eq, not_true_eq_false, if_false, Option.some.injEq]
      constructor
      · intro h; cases h
      · rintro ⟨rfl, rfl, h3⟩; exact absurd hc h3
    · simp only [ne_eq, hc, not_false_eq_true, if_true, Option.some.injEq,
        Prod.mk.injEq]
      constructor
      · rintro ⟨rfl, rfl⟩; exact ⟨rfl, rfl, hc⟩
      · rintro ⟨rfl, rfl, _⟩; exact ⟨rfl, rfl⟩
  · rename_i hl
    rw [hl]
    simp

/-- An in-flight task of agent `x`, used as the seed of concrete
capacity scenarios. -/
def wTaskActive : Task :=
  { wTask with id := "a1", status := "assigned", assigned_to := some "x" }

/-- A pending task with no dependencies keyed `a2`. -/
def wTaskFree : Task := { wTask with id := "a2", status := "pending" }

/-- First trace state for the C2 counterexample: agent `x` limited to one
concurrent task. -/
def c2s1 : OrchState := (set_agent_capacity initState 0 "x" 1).2

/-- Second trace state: one task created with assignee `x`. -/
def c2s2 : OrchState :=
  (create_task c2s1 1 "t1" "d" "medium" [] (some "x") [] 30).2

/-- Third trace state: a second task created with assignee `x`. -/
def c2s3 : OrchState :=
  (create_task c2s2 2 "t2" "d" "medium" [] (some "x") [] 30).2

/-- Counterexample for C2: starting from the empty state, set agent `x`'s
capacity limit to 1, then create two tasks with assignee `x` (an operation
with no `force` parameter at all) — both creations succeed and the
reachable state `c2s3` holds two tasks of `x` in status `assigned`,
exceeding the limit 1 without any forced assignment. -/
theorem capacity_invariant_create_task_cex :
    (create_task c2s1 1 "t1" "d" "medium" [] (some "x") [] 30).1.isOk =
      true ∧
    (create_task c2s2 2 "t2" "d" "medium" [] (some "x") [] 30).1.isOk =
      true ∧
    (dictLookup c2s3.agent_capacities "x").map CapacityRecord.max_concurrent
      = some 1 ∧
    countActive c2s3 "x" = 2 := by decide

/-- C2 as amended: the capacity bound is enforced by `assign_task` alone —
a non-forced assignment to an agent whose capacity record is at or over
its limit never succeeds (while `create_task` with an assignee performs no
capacity check, so the bound does not hold across every
assignee-setting operation). -/
theorem assign_nonforced_blocked_at_capacity (s : OrchState) (now : Nat)
    (task_id agent_id : String) (cap : CapacityRecord)
    (hcap : dictLookup s.agent_capacities agent_id = some cap)
    (hfull : cap.max_concurrent ≤ countActive s agent_id) :
    (assign_task s now task_id agent_id false).1.isOk = false := by
  cases h1 : dictLookup s.tasks task_id with
  | none => simp [assign_task, h1, AssignResult.isOk]
  | some task =>
    cases h2 : task.depends_on.findSome? (unmetDep s) with
    | some p =>
      obtain ⟨d, b⟩ := p
      simp [assign_task, h1, h2, AssignResult.isOk]
    | none =>
      simp [assign_task, h1, h2, hcap, hfull, AssignResult.isOk]

/-- A store with agent `x` saturated (limit 1, one in-flight task) plus a
free pending task `a2`. -/
def wCapState : OrchState :=
  { initState with
      tasks := [("a1", wTaskActive), ("a2", wTaskFree)],
      agent_capacities := [("x", ⟨1, 0⟩)] }

/-- Witness for the amended C2: in the concrete saturated store, the
non-forced assignment of the free task to `x` does not succeed. -/
theorem assign_nonforced_blocked_at_capacity_witness :
    (dictLookup wCapState.agent_capacities "x" =
      some (⟨1, 0⟩ : CapacityRecord) ∧
     (⟨1, 0⟩ : CapacityRecord).max_concurrent ≤ countActive wCapState "x") ∧
    (assign_task wCapState 3 "a2" "x" false).1.isOk = false :=
  ⟨⟨rfl, by decide⟩,
   assign_nonforced_blocked_at_capacity wCapState 3 "a2" "x" ⟨1, 0⟩ rfl
     (by decide)⟩

/-- A pending task whose single dependency id `ghost` matches no task in
the store. -/
def wGhostTask : Task :=
  { wTask with id := "g1", status := "pending", depends_on := ["ghost"] }

/-- A one-task store holding `wGhostTask`. -/
def wGhostState : OrchState := { initState with tasks := [("g1", wGhostTask)] }

/-- Counterexample for C3: task `g1` has the non-empty dependency list
`["ghost"]`, `ghost` matches no task in the store (so it certainly has not
reached status `completed`), yet `assign_task` succeeds instead of
failing with the dependency error. -/
theorem assign_missing_dependency_cex :
    dictLookup wGhostState.tasks "ghost" = none ∧
    "ghost" ∈ wGhostTask.depends_on ∧
    (assign_task wGhostState 5 "g1" "a" false).1.isOk = true := by decide

/-- C3 as amended: `assign_task` fails with the dependency error — whose
payload names the offending dependency id and carries its task record —
exactly when some dependency of the task is present in the store with a
status other than `completed`; the error names the first such dependency
in list order, dependency ids absent from the store are skipped, and the
state is left unchanged. -/
theorem assign_first_unmet_dependency_fails (s : OrchState) (now : Nat)
    (task_id agent_id : String) (force : Bool) (task : Task)
    (dep_id : String) (blocking : Task)
    (htask : dictLookup s.tasks task_id = some task)
    (hfind : task.depends_on.findSome? (unmetDep s) =
      some (dep_id, blocking)) :
    (assign_task s now task_id agent_id force).1 =
      AssignResult.dependencyNotCompleted dep_id blocking ∧
    (assign_task s now task_id agent_id force).2 = s := by
  simp [assign_task, htask, hfind]

/-- A dependency task in status `pending`, keyed `d1`. -/
def wDepTask : Task := { wTask with id := "d1", status := "pending" }

/-- A pending task depending on `d1`, keyed `b1`. -/
def wBlockedTask : Task :=
  { wTask with id := "b1", status := "pending", depends_on := ["d1"] }

/-- A store where agent `x` is saturated (limit 1, in-flight task `a1`)
and task `b1` depends on the still-pending `d1`. -/
def wOrderState : OrchState :=
  { initState with
      tasks := [("d1", wDepTask), ("b1", wBlockedTask), ("a1", wTaskActive)],
      agent_capacities := [("x", ⟨1, 0⟩)] }

/-- Witness for the amended C3: assigning `b1` — whose dependency `d1` is
pending — fails naming `d1` with its record and leaves the state as it
was. -/
theorem assign_first_unmet_dependency_fails_witness :
    (dictLookup wOrderState.tasks "b1" = some wBlockedTask ∧
     wBlockedTask.depends_on.findSome? (unmetDep wOrderState) =
       some ("d1", wDepTask)) ∧
    ((assign_task wOrderState 3 "b1" "a" false).1 =
      AssignResult.dependencyNotCompleted "d1" wDepTask ∧
     (assign_task wOrderState 3 "b1" "a" false).2 = wOrderState) :=
  ⟨⟨rfl, by decide⟩,
   assign_first_unmet_dependency_fails wOrderState 3 "b1" "a" false
     wBlockedTask "d1" wDepTask rfl (by decide)⟩

/-- C4: in `assign_task` the dependency check precedes the capacity check
— for a task with an unmet (present, not `completed`) dependency and an
agent already at or above its capacity limit, the non-forced call reports
the dependency error, never the capacity error. -/
theorem dependency_check_precedes_capacity_check (s : OrchState)
    (now : Nat) (task_id agent_id : String) (task : Task)
    (dep_id : String) (blocking : Task) (cap : CapacityRecord)
    (htask : dictLookup s.tasks task_id = some task)
    (hfind : task.depends_on.findSome? (unmetDep s) =
      some (dep_id, blocking))
    (_hcap : dictLookup s.agent_capacities agent_id = some cap)
    (_hfull : cap.max_concurrent ≤ countActive s agent_id) :
    (assign_task s now task_id agent_id false).1 =
      AssignResult.dependencyNotCompleted dep_id blocking := by
  simp only [assign_task, htask, hfind]

/-- Witness for C4: assigning the dependency-blocked `b1` to the saturated
agent `x` reports the dependency error naming `d1`. -/
theorem dependency_check_precedes_capacity_check_witness :
    (dictLookup wOrderState.tasks "b1" = some wBlockedTask ∧
     wBlockedTask.depends_on.findSome? (unmetDep wOrderState) =
       some ("d1", wDepTask) ∧
     dictLookup wOrderState.agent_capacities "x" =
       some (⟨1, 0⟩ : CapacityRecord) ∧
     (⟨1, 0⟩ : CapacityRecord).max_concurrent ≤
       countActive wOrderState "x") ∧
    (assign_task wOrderState 3 "b1" "x" false).1 =
      AssignResult.dependencyNotCompleted "d1" wDepTask :=
  ⟨⟨rfl, by decide, rfl, by decide⟩,
   dependency_check_precedes_capacity_check wOrderState 3 "b1" "x"
     wBlockedTask "d1" wDepTask ⟨1, 0⟩ rfl (by decide) rfl (by decide)⟩

/-- A store with five in-flight tasks of agent `x`, a free pending task
`t6`, and no capacity record for `x`. -/
def wFiveState : OrchState :=
  { initState with
      tasks := [
        ("a1", { wTaskActive with id := "a1" }),
        ("a2", { wTaskActive with id := "a2" }),
        ("a3", { wTaskActive with id := "a3" }),
        ("a4", { wTaskActive with id := "a4" }),
        ("a5", { wTaskActive with id := "a5" }),
        ("t6", { wTask with id := "t6", status := "pending" })] }

/-- Counterexample for C5: agent `x` has no capacity record and already
five tasks in `{assigned, in_progress}` — at the claimed default limit 5 —
yet the non-forced assignment of `t6` to `x` succeeds instead of failing
with the capacity error. -/
theorem assign_default_capacity_cex :
    dictLookup wFiveState.agent_capacities "x" = none ∧
    countActive wFiveState "x" = 5 ∧
    (assign_task wFiveState 9 "t6" "x" false).1.isOk = true := by decide

/-- C5 as amended: an agent with no capacity record is never
capacity-checked — for a known task whose present dependencies are all
`completed`, the assignment succeeds whatever the agent's in-flight count
(the hard-coded default of 5 applies only to a capacity record lacking its
`max_concurrent` key, which `set_agent_capacity` never produces; and the
capacity error message names the offending count but not the limit). -/
theorem assign_without_capacity_record_succeeds (s : OrchState) (now : Nat)
    (task_id agent_id : String) (force : Bool) (task : Task)
    (htask : dictLookup s.tasks task_id = some task)
    (hdeps : task.depends_on.findSome? (unmetDep s) = none)
    (hcap : dictLookup s.agent_capacities agent_id = none) :
    (assign_task s now task_id agent_id force).1 =
      AssignResult.ok { task with assigned_to := some agent_id,
                                  status := "assigned",
                                  updated_at := now } := by
  simp only [assign_task, htask, hdeps, hcap]

/-- Witness for the amended C5: in the concrete five-in-flight store the
non-forced assignment of `t6` to the record-less agent `x` succeeds. -/
theorem assign_without_capacity_record_succeeds_witness :
    (dictLookup wFiveState.tasks "t6" =
       some { wTask with id := "t6", status := "pending" } ∧
     List.findSome? (unmetDep wFiveState)
       (Task.depends_on { wTask with id := "t6", status := "pending" }) =
         none ∧
     dictLookup wFiveState.agent_capacities "x" = none) ∧
    (assign_task wFiveState 9 "t6" "x" false).1 =
      AssignResult.ok { wTask with id := "t6", status := "assigned",
                                   assigned_to := some "x",
                                   updated_at := 9 } :=
  ⟨⟨rfl, rfl, rfl⟩,
   assign_without_capacity_record_succeeds wFiveState 9 "t6" "x" false
     { wTask with id := "t6", status := "pending" } rfl rfl rfl⟩

/-- `True` exactly on the success constructor of `CompleteResult`. -/
def CompleteResult.isOk : CompleteResult → Bool
  | .ok _ _ => true
  | _ => false

/-- `True` exactly on the success constructor of `ExecuteResult`. -/
def ExecuteResult.isOk : ExecuteResult → Bool
  | .ok _ _ => true
  | _ => false

/-- The `created_tasks` list of an `execute_workflow` result. -/
def ExecuteResult.createdTasks : ExecuteResult → List String
  | .ok _ created => created
  | .notFound _ => []

/-- Steps for the C6 counterexample: the second step carries the invalid
priority `bogus`, so its task creation fails mid-expansion. -/
def c6Steps : List WorkflowStep :=
  [{ name := "A", task_template := some "da", depends_on := [],
     priority := none },
   { name := "B", task_template := some "db", depends_on := ["A"],
     priority := some "bogus" }]

/-- The state after defining the two-step C6 workflow (id `wf_0`). -/
def c6s1 : OrchState := (create_workflow initState 0 "w" "" c6Steps).2

/-- Counterexample for C6: expanding the two-step workflow `wf_0` cannot
create a task for step `B` (invalid priority), yet the registries are left
in an intermediate state — the call reports success, exactly one of the
two step tasks exists afterwards, and the workflow is marked `executing` —
rather than the mutation fully applying or fully failing. -/
theorem execute_workflow_partial_failure_cex :
    (execute_workflow c6s1 1 "wf_0").1.isOk = true ∧
    (execute_workflow c6s1 1 "wf_0").1.createdTasks = ["task_1"] ∧
    c6Steps.length = 2 ∧
    c6s1.tasks.length = 0 ∧
    (execute_workflow c6s1 1 "wf_0").2.tasks.length = 1 ∧
    (dictLookup (execute_workflow c6s1 1 "wf_0").2.workflows "wf_0").map
      Workflow.status = some "executing" := by decide

/-- C6 as amended: workflow expansion has partial-failure semantics — a
step whose task creation fails is silently skipped while earlier created
tasks and the `executing` mark persist and the call still reports success;
the elementary mutations, by contrast, are all-or-nothing: whenever
`create_task`, `assign_task`, `complete_task` or `execute_workflow`
reports failure, the state (every registry) is exactly as before. -/
theorem failed_mutations_leave_state_unchanged :
    (∀ (s : OrchState) (now : Nat) (title description pr : String)
       (depends_on : List String) (assigned_to : Option String)
       (tags : List String) (em : Nat),
       (create_task s now title description pr depends_on assigned_to
         tags em).1.isOk = false →
       (create_task s now title description pr depends_on assigned_to
         tags em).2 = s) ∧
    (∀ (s : OrchState) (now : Nat) (task_id agent_id : String)
       (force : Bool),
       (assign_task s now task_id agent_id force).1.isOk = false →
       (assign_task s now task_id agent_id force).2 = s) ∧
    (∀ (s : OrchState) (now : Nat) (task_id res st : String),
       (complete_task s now task_id res st).1.isOk = false →
       (complete_task s now task_id res st).2 = s) ∧
    (∀ (s : OrchState) (now : Nat) (workflow_id : String),
       (execute_workflow s now workflow_id).1.isOk = false →
       (execute_workflow s now workflow_id).2 = s) := by
  refine ⟨?_, ?_, ?_, ?_⟩
  · intro s now title description pr depends_on assigned_to tags em
    unfold create_task
    dsimp only
    split
    · intro _; rfl
    · split
      · intro _; rfl
      · intro h; simp [CreateTaskResult.isOk] at h
  · intro s now task_id agent_id force
    unfold assign_task
    dsimp only
    split
    · intro _; rfl
    · split
      · intro _; rfl
      · split
        · intro _; rfl
        · intro h; simp [AssignResult.isOk] at h
  · intro s now task_id res st
    unfold complete_task
    dsimp only
    split
    · intro _; rfl
    · intro h; simp [CompleteResult.isOk] at h
  · intro s now workflow_id
    unfold execute_workflow
    dsimp only
    split
    · intro _; rfl
    · intro h; simp [ExecuteResult.isOk] at h

/-- Witness for the amended C6: one concrete failing call of each of the
four mutations on the empty state leaves it exactly empty. -/
theorem failed_mutations_leave_state_unchanged_witness :
    ((create_task initState 0 "t" "d" "bogus" [] none [] 30).1.isOk =
       false ∧
     (create_task initState 0 "t" "d" "bogus" [] none [] 30).2 =
       initState) ∧
    ((assign_task initState 0 "nope" "x" false).1.isOk = false ∧
     (assign_task initState 0 "nope" "x" false).2 = initState) ∧
    ((complete_task initState 0 "nope" "r" "completed").1.isOk = false ∧
     (complete_task initState 0 "nope" "r" "completed").2 = initState) ∧
    ((execute_workflow initState 0 "nope").1.isOk = false ∧
     (execute_workflow initState 0 "nope").2 = initState) :=
  ⟨⟨by decide, failed_mutations_leave_state_unchanged.1 initState 0 "t" "d"
      "bogus" [] none [] 30 (by decide)⟩,
   ⟨by decide, failed_mutations_leave_state_unchanged.2.1 initState 0
      "nope" "x" false (by decide)⟩,
   ⟨by decide, failed_mutations_leave_state_unchanged.2.2.1 initState 0
      "nope" "r" "completed" (by decide)⟩,
   ⟨by decide, failed_mutations_leave_state_unchanged.2.2.2 initState 0
      "nope" (by decide)⟩⟩

/-- The three-step workflow `[{A, deps := []}, {B, deps := [A]},
{C, deps := [A, B]}]` of C7. -/
def c7Steps : List WorkflowStep :=
  [{ name := "A", task_template := some "da", depends_on := [],
     priority := none },
   { name := "B", task_template := some "db", depends_on := ["A"],
     priority := none },
   { name := "C", task_template := some "dc", depends_on := ["A", "B"],
     priority := none }]

/-- A two-step workflow whose first step names the not-yet-processed
second step as a prerequisite. -/
def c7Fwd : List WorkflowStep :=
  [{ name := "D", task_template := some "dd", depends_on := ["E"],
     priority := none },
   { name := "E", task_template := some "de", depends_on := [],
     priority := none }]

/-- The state after defining the three-step C7 workflow (id `wf_0`). -/
def c7s : OrchState := (create_workflow initState 0 "w" "" c7Steps).2

/-- The C7 expansion run. -/
def c7res : ExecuteResult × OrchState := execute_workflow c7s 1 "wf_0"

/-- The state after defining the forward-reference workflow (id `wf_0`). -/
def c7fs : OrchState := (create_workflow initState 0 "v" "" c7Fwd).2

/-- C7: workflow expansion processes steps in the order supplied and
resolves each named prerequisite to the task id produced earlier in the
same expansion — on `[{A, []}, {B, [A]}, {C, [A, B]}]` it creates three
tasks with `taskId(A) = task_1`, `taskId(B) = task_2`, `taskId(C) =
task_3`, where B's dependency set is `{task_1}` and C's is
`{task_1, task_2}`; and a prerequisite naming a step not yet processed
(step `D` naming `E`) is silently dropped, leaving `D`'s task with no
dependencies. -/
theorem workflow_expansion_resolves_dependencies :
    ((dictLookup c7res.2.workflows "wf_0").map Workflow.task_ids =
       some [("A", "task_1"), ("B", "task_2"), ("C", "task_3")] ∧
     c7res.1.createdTasks = ["task_1", "task_2", "task_3"] ∧
     (dictLookup c7res.2.tasks "task_1").map Task.depends_on = some [] ∧
     (dictLookup c7res.2.tasks "task_2").map Task.depends_on =
       some ["task_1"] ∧
     (dictLookup c7res.2.tasks "task_3").map Task.depends_on =
       some ["task_1", "task_2"]) ∧
    ((execute_workflow c7fs 1 "wf_0").1.createdTasks =
       ["task_1", "task_2"] ∧
     (dictLookup (execute_workflow c7fs 1 "wf_0").2.tasks "task_1").map
       Task.depends_on = some []) := by decide

/-- C8: `broadcast_message` always succeeds — for every state and
arguments the result carries the success flag, its recipient list is
duplicate-free and holds exactly the union of the explicit
`target_agents` and the named team's member list (an absent or unknown
team contributing nothing); on the concrete example `target_agents =
[a, b]` with a team of members `[b, c]`, the recipient set is `{a, b, c}`
of size 3. -/
theorem broadcast_always_succeeds_with_union_recipients :
    (∀ (s : OrchState) (now : Nat) (message : String)
       (target_agents : List String) (team_id : Option String)
       (pr : String),
       (broadcast_message s now message target_agents team_id pr).1.success
         = true ∧
       (broadcast_message s now message target_agents team_id
         pr).1.broadcast.recipients.Nodup ∧
       ∀ x, (x ∈ (broadcast_message s now message target_agents team_id
           pr).1.broadcast.recipients ↔
         (x ∈ target_agents ∨ x ∈ teamMembers s team_id))) ∧
    ((broadcast_message (create_agent_team initState 0 "team" ["b", "c"]
        "").2 1 "hi" ["a", "b"] (some "team_0") "medium").1.recipients_count
       = 3 ∧
     (broadcast_message (create_agent_team initState 0 "team" ["b", "c"]
        "").2 1 "hi" ["a", "b"] (some "team_0")
        "medium").1.broadcast.recipients.toFinset = {"a", "b", "c"}) := by
  constructor
  · intro s now message target_agents team_id pr
    refine ⟨rfl, List.nodup_dedup _, fun x => ?_⟩
    simp only [broadcast_message, List.mem_dedup, List.mem_append]
    cases ht : target_agents.isEmpty
    · simp
    · rw [List.isEmpty_iff.mp ht]
      simp
  · exact ⟨by decide, by decide⟩

end Orchestration
